import Mathlib

/-
Verification of the AI-Secretary meeting-automation pipeline.

The development shallowly embeds the TypeScript sources:
 * `lib/memory.ts` (history store: sanitation, preview, persist, replace),
 * `lib/jira.ts` (issue-tracker client: toggle resolvers, task creation),
 * `app/api/create-jira-tasks/route.ts` (issue-creation endpoint),
 * `lib/nlp.ts` (extraction client with retries),
 * `hooks/useWorkflowManager.ts` (workflow orchestration, `submitToJira`).

JavaScript strings are modelled as `List Char` (`JStr`), so that lengths,
slicing and trimming are explicit list operations.  Finite JavaScript
numbers that are only ever converted to text are modelled as `Int`;
confidence values are modelled as `ℚ` (`NaN` is modelled as an absent
value).  Remote HTTP calls are modelled by oracles supplied as explicit
arguments; thrown JavaScript exceptions are modelled with `Except`.
-/

abbrev JStr := List Char

/-- JavaScript `String.prototype.trim`: drop leading and trailing whitespace. -/
def jsTrim (s : JStr) : JStr :=
  ((s.dropWhile Char.isWhitespace).reverse.dropWhile Char.isWhitespace).reverse

/-- Helper for `label.replace(/\s+/g, "-")`.  The boolean records whether the
previous character was whitespace (so a maximal whitespace run produces a
single dash). -/
def collapseWsAux : Bool → JStr → JStr
  | _, [] => []
  | prevWs, c :: cs =>
    if c.isWhitespace then
      if prevWs then collapseWsAux true cs else '-' :: collapseWsAux true cs
    else c :: collapseWsAux false cs

/-- JavaScript `s.replace(/\s+/g, "-")`: every maximal run of whitespace is
replaced by one `'-'`. -/
def collapseWs (s : JStr) : JStr := collapseWsAux false s

/-- A raw (untyped) JSON/JavaScript value in a position where the sanitisers
inspect `typeof`: a string, a finite number (modelled as an integer), or
anything else (`null`, `undefined`, objects, `NaN`, ...). -/
inductive RawVal where
  | vstr (s : JStr)
  | vnum (n : Int)
  | vnull
deriving DecidableEq

/-- `normaliseString` from `lib/memory.ts`: trimmed non-empty strings survive,
finite numbers are stringified, everything else becomes `null`. -/
def normaliseString : RawVal → Option JStr
  | .vstr s => let t := jsTrim s; if t = [] then none else some t
  | .vnum n => some (toString n).toList
  | .vnull => none

/-- `clampConfidence` from `lib/memory.ts`: non-numbers and `NaN` (modelled as
`none`) coerce to `0`; otherwise the value is clamped into `[0, 1]`. -/
def clampConfidence (value : Option ℚ) : ℚ :=
  match value with
  | none => 0
  | some v => if v < 0 then 0 else if 1 < v then 1 else v

/-- A sanitized extracted task (`ActionItem` from `lib/types.ts`). -/
structure ActionItem where
  summary : JStr
  confidence : ℚ
  source : Option JStr
  assignee : Option JStr
  due : Option JStr
  priority : Option JStr
  labels : List JStr
deriving DecidableEq

/-- The `label => typeof label === "string" ? label.trim() : ""` mapping used
by `sanitiseLabels`. -/
def rawLabelText : RawVal → JStr
  | .vstr s => jsTrim s
  | _ => []

/-- One insertion into a JavaScript `Set` (insertion order preserved,
duplicates ignored). -/
def setAdd (acc : List JStr) (x : JStr) : List JStr :=
  if x ∈ acc then acc else acc ++ [x]

/-- `Array.from(new Set(ls))`: deduplicate keeping first occurrences. -/
def setFromList (ls : List JStr) : List JStr := ls.foldl setAdd []

/-- Reference formulation of first-occurrence deduplication, used to state
what `setFromList` computes. -/
def dedupFirst : List JStr → List JStr
  | [] => []
  | x :: xs => x :: dedupFirst (xs.filter (fun y => y ≠ x))
termination_by l => l.length
decreasing_by
  simp only [List.length_cons]
  exact Nat.lt_succ_of_le (List.length_filter_le _ _)

/-- `sanitiseLabels` from `lib/memory.ts`: non-arrays become `[]`; entries are
trimmed (non-strings become empty), empties dropped, internal whitespace runs
collapsed to `'-'`, and duplicates removed via a `Set`. -/
def sanitiseLabels (value : Option (List RawVal)) : List JStr :=
  match value with
  | none => []
  | some arr =>
    let labels := ((arr.map rawLabelText).filter (fun l => l ≠ [])).map collapseWs
    setFromList labels

/-- The raw shape fed to `sanitiseActionItem` (a `Partial<ActionItem>` of
unvalidated values). -/
structure RawActionItem where
  summary : RawVal
  confidence : Option ℚ
  source : RawVal
  assignee : RawVal
  due : RawVal
  priority : RawVal
  labels : Option (List RawVal)
deriving DecidableEq

/-- The candidate obtained from `(raw ?? {})` when `raw` is not an object:
every field access yields `undefined`. -/
def emptyRawActionItem : RawActionItem :=
  ⟨.vnull, none, .vnull, .vnull, .vnull, .vnull, none⟩

/-- `sanitiseActionItem` from `lib/memory.ts`. -/
def sanitiseActionItem (raw : Option RawActionItem) : ActionItem :=
  let candidate := raw.getD emptyRawActionItem
  { summary := (normaliseString candidate.summary).getD []
    confidence := clampConfidence candidate.confidence
    source := normaliseString candidate.source
    assignee := normaliseString candidate.assignee
    due := normaliseString candidate.due
    priority := normaliseString candidate.priority
    labels := sanitiseLabels candidate.labels }

/-- The raw summary field that `sanitiseActionItem` reads. -/
def rawSummaryOf (raw : Option RawActionItem) : RawVal :=
  (raw.getD emptyRawActionItem).summary

/-- The truncation marker appended by `createPreview`: the source file's
template literal contains the literal three-character sequence `â€¦`
(a double-encoded ellipsis committed in the file), appended after the
280-character slice. -/
def ellipsisMarker : JStr := "â€¦".toList

/-- `createPreview` from `lib/memory.ts`: trim, and if longer than 280
characters keep the first 280 and append the three-character truncation
marker. -/
def createPreview (transcript : JStr) : JStr :=
  let trimmed := jsTrim transcript
  if trimmed.length ≤ 280 then trimmed
  else trimmed.take 280 ++ ellipsisMarker

/-- The cleaning pipeline of `sanitiseLabels` before deduplication (used to
state the claim about label sanitation). -/
def cleanedLabels (value : Option (List RawVal)) : List JStr :=
  match value with
  | none => []
  | some arr => ((arr.map rawLabelText).filter (fun l => l ≠ [])).map collapseWs

/-! ### History store (`lib/memory.ts`) -/

/-- `MeetingSource` from `lib/memory.ts`. -/
inductive MeetingSource where
  | upload
  | zoom
  | google
deriving DecidableEq

/-- `JiraResult` from `lib/jira.ts`. -/
structure JiraResult where
  summary : JStr
  success : Bool
  issueKey : Option JStr
  issueUrl : Option JStr
  error : Option JStr
deriving DecidableEq

/-- `MeetingSummary` from `lib/memory.ts`.  `metadata` is modelled as an
insertion-ordered association list (JavaScript object entries). -/
structure MeetingSummary where
  id : JStr
  source : MeetingSource
  createdAt : JStr
  transcript : JStr
  transcriptPreview : JStr
  tasks : List ActionItem
  metadata : Option (List (JStr × JStr))
  jiraResults : Option (List JiraResult)
deriving DecidableEq

/-- `normaliseString` applied to an optional string field (absent values are
`undefined` and normalise to `null`). -/
def normaliseStrOpt (v : Option JStr) : Option JStr :=
  v.bind (fun s => normaliseString (.vstr s))

/-- View a well-typed `ActionItem` as the raw value `sanitiseActionItem`
receives when a typed task is re-sanitised. -/
def toRawActionItem (t : ActionItem) : RawActionItem :=
  { summary := .vstr t.summary
    confidence := some t.confidence
    source := match t.source with | some s => .vstr s | none => .vnull
    assignee := match t.assignee with | some s => .vstr s | none => .vnull
    due := match t.due with | some s => .vstr s | none => .vnull
    priority := match t.priority with | some s => .vstr s | none => .vnull
    labels := some (t.labels.map .vstr) }

/-- `sanitiseMetadata` from `lib/memory.ts` on typed entries: values are
normalised, falsy/unnormalisable entries dropped, and an empty result becomes
`undefined`. -/
def sanitiseMetadata (metadata : Option (List (JStr × JStr))) :
    Option (List (JStr × JStr)) :=
  match metadata with
  | none => none
  | some entries =>
    let es := entries.filterMap
      (fun kv => (normaliseString (.vstr kv.2)).map (fun v => (kv.1, v)))
    if es = [] then none else some es

/-- `sanitiseJiraResult` from `lib/memory.ts` on a typed value: results whose
summary normalises to empty are dropped (`null`). -/
def sanitiseJiraResult (r : JiraResult) : Option JiraResult :=
  let summary := (normaliseString (.vstr r.summary)).getD []
  if summary = [] then none
  else some
    { summary := summary
      success := r.success
      issueKey := normaliseStrOpt r.issueKey
      issueUrl := normaliseStrOpt r.issueUrl
      error := normaliseStrOpt r.error }

/-- `sanitiseJiraResults` from `lib/memory.ts`: invalid entries are dropped
and an empty list becomes `undefined`. -/
def sanitiseJiraResults (raw : Option (List JiraResult)) :
    Option (List JiraResult) :=
  match raw with
  | none => none
  | some l =>
    let results := l.filterMap sanitiseJiraResult
    if results = [] then none else some results

/-- `sanitiseMeetingSummary` from `lib/memory.ts`, modelled on well-typed
records (the shape produced by `createMeetingSummary` and by the workflow
hook, which are the inputs on the persist/replace paths the claims are
about).  The impure fallbacks `Date.now()-Math.random()` and
`new Date().toISOString()`, used only when `id`/`createdAt` normalise to
nothing, are modelled by the explicit `fresh` argument. -/
def sanitiseMeetingSummary (fresh : JStr × JStr) (candidate : MeetingSummary) :
    MeetingSummary :=
  let transcript := (normaliseString (.vstr candidate.transcript)).getD []
  { id := (normaliseString (.vstr candidate.id)).getD fresh.1
    source := candidate.source
    createdAt := (normaliseString (.vstr candidate.createdAt)).getD fresh.2
    transcript := transcript
    transcriptPreview := createPreview candidate.transcriptPreview
    tasks := candidate.tasks.map (fun t => sanitiseActionItem (some (toRawActionItem t)))
    metadata := sanitiseMetadata candidate.metadata
    jiraResults := sanitiseJiraResults candidate.jiraResults }

/-- `HISTORY_LIMIT` from `lib/memory.ts`. -/
def HISTORY_LIMIT : Nat := 10

/-- Two records agree on the `(sourceKind, transcript)` upsert key. -/
def samePair (a b : MeetingSummary) : Prop :=
  a.source = b.source ∧ a.transcript = b.transcript

instance (a b : MeetingSummary) : Decidable (samePair a b) := by
  unfold samePair; infer_instance

/-- `persistMeetingSummary` from `lib/memory.ts` on the explicit-history path
(the workflow hook always passes the current history; the `loadMeetingHistory`
fallback reads the same storage the result is written back to). -/
def persistMeetingSummary (fresh : JStr × JStr) (summary : MeetingSummary)
    (existingHistory : List MeetingSummary) : List MeetingSummary :=
  let baseHistory := existingHistory.map (sanitiseMeetingSummary fresh)
  let sanitisedSummary := sanitiseMeetingSummary fresh summary
  let withoutDuplicate := baseHistory.filter
    (fun item => decide (¬ samePair item sanitisedSummary))
  (sanitisedSummary :: withoutDuplicate).take HISTORY_LIMIT

/-- `replaceMeetingSummary` from `lib/memory.ts` on the explicit-history
path: the matching record is replaced by the re-sanitised updater output,
all other records are kept. -/
def replaceMeetingSummary (fresh : JStr × JStr) (id : JStr)
    (updater : MeetingSummary → MeetingSummary)
    (existingHistory : List MeetingSummary) : List MeetingSummary :=
  let baseHistory := existingHistory.map (sanitiseMeetingSummary fresh)
  baseHistory.map (fun item =>
    if item.id = id then sanitiseMeetingSummary fresh (updater item) else item)

/-! ### Issue-tracker client (`lib/jira.ts`) -/

/-- `JiraConfig` from `lib/jira.ts`. -/
structure JiraConfig where
  baseUrl : JStr
  email : JStr
  token : JStr
  projectKey : JStr
  description : Option JStr
  issueType : Option JStr
  defaultAssignee : Option JStr
  defaultPriority : Option JStr
  defaultLabels : Option (List JStr)
  syncAssignee : Option Bool
  syncDueDate : Option Bool
  syncPriority : Option Bool
  syncLabels : Option Bool
deriving DecidableEq

/-- The three shapes `resolveAssignee` can place into the issue payload. -/
inductive JiraAssignee where
  | accountId (s : JStr)
  | emailAddress (s : JStr)
  | name (s : JStr)
deriving DecidableEq

/-- The test `/^[0-9a-f-]{24,}$/i.test(s)`: at least 24 characters, all hex
digits or dashes. -/
def isAccountIdLike (s : JStr) : Bool :=
  decide (24 ≤ s.length) &&
    s.all (fun c =>
      c.isDigit || (decide ('a' ≤ c) && decide (c ≤ 'f')) ||
        (decide ('A' ≤ c) && decide (c ≤ 'F')) || decide (c = '-'))

/-- The trim-and-classify step shared by the assignee resolution: empty or
blank candidates are dropped, account ids, e-mail addresses and plain names
are distinguished. -/
def classifyAssignee (a : JStr) : Option JiraAssignee :=
  let trimmed := jsTrim a
  if trimmed = [] then none
  else if isAccountIdLike trimmed then some (.accountId trimmed)
  else if trimmed.contains '@' then some (.emailAddress trimmed)
  else some (.name trimmed)

/-- `resolveAssignee` from `lib/jira.ts`. -/
def resolveAssignee (item : ActionItem) (config : JiraConfig) :
    Option JiraAssignee :=
  let assigneeCandidate :=
    if config.syncAssignee = some false then config.defaultAssignee
    else item.assignee <|> config.defaultAssignee
  match assigneeCandidate with
  | none => none
  | some a => classifyAssignee a

/-- `resolveDueDate` from `lib/jira.ts`. -/
def resolveDueDate (item : ActionItem) (config : JiraConfig) : Option JStr :=
  if config.syncDueDate = some false then none else item.due

/-- `resolvePriority` from `lib/jira.ts`. -/
def resolvePriority (item : ActionItem) (config : JiraConfig) : Option JStr :=
  if config.syncPriority = some false then config.defaultPriority
  else item.priority <|> config.defaultPriority

/-- `normaliseLabels` from `lib/jira.ts`: the configured default labels are
always iterated first, the item labels follow unless `syncLabels` is `false`;
each label is trimmed, blank ones are skipped, whitespace runs become dashes,
and a `Set` removes duplicates.  An empty set becomes `undefined`. -/
def normaliseLabels (item : ActionItem) (config : JiraConfig) :
    Option (List JStr) :=
  let fromConfig := config.defaultLabels.getD []
  let fromTask := if config.syncLabels = some false then [] else item.labels
  let combined := (fromConfig ++ fromTask).foldl
    (fun acc label =>
      let trimmed := jsTrim label
      if trimmed = [] then acc else setAdd acc (collapseWs trimmed)) []
  if combined = [] then none else some combined

/-- The resolution rule stated by the specification for one optional field:
when the sync toggle is disabled the tracker default is used, otherwise the
item value with the tracker default as fallback. -/
def specToggleResolve (toggle : Option Bool) (itemVal defVal : Option JStr) :
    Option JStr :=
  if toggle = some false then defVal else itemVal <|> defVal

/-- The amended label rule actually implemented: the config defaults are
always included, the item labels are appended when syncing is enabled, then
the combined list is trimmed, cleaned, collapsed and first-occurrence
deduplicated. -/
def specLabelsAmended (toggle : Option Bool)
    (itemLabels defLabels : List JStr) : Option (List JStr) :=
  let source := defLabels ++ (if toggle = some false then [] else itemLabels)
  let cleaned := dedupFirst (((source.map jsTrim).filter (fun l => l ≠ [])).map collapseWs)
  if cleaned = [] then none else some cleaned

/-- The scheme + host part of `new URL(path, base)` resolution, extracted by
scanning for `"://"` and taking the host up to the next `'/'`.  (The WHATWG
URL algorithm is approximated for the absolute-path resolutions the client
performs.) -/
def takeUntilSlash : JStr → JStr
  | [] => []
  | c :: cs => if c = '/' then [] else c :: takeUntilSlash cs

/-- Scan for the `"://"` separator, returning the origin on success. -/
def urlOriginAux : JStr → JStr → Option JStr
  | acc, ':' :: '/' :: '/' :: rest =>
    some (acc.reverse ++ "://".toList ++ takeUntilSlash rest)
  | acc, c :: cs => urlOriginAux (c :: acc) cs
  | _, [] => none

/-- Origin of a base URL (falls back to the whole string when no scheme
separator is present). -/
def urlOrigin (s : JStr) : JStr := (urlOriginAux [] s).getD s

/-- `new URL("/browse/" + key, baseUrl).toString()`. -/
def browseUrl (base key : JStr) : JStr :=
  urlOrigin base ++ "/browse/".toList ++ key

/-- The ways the modelled `createJiraTask` call can throw: an abort caused by
the route's timeout timer, a JavaScript `Error` (transport failure, body
parse failure, ...) carrying a message, or a thrown non-`Error` value. -/
inductive TrackerThrow where
  | abortError
  | jsError (message : JStr)
  | nonError
deriving DecidableEq

/-- Outcome of the single `fetch` to the tracker performed by one
`createJiraTask` call, as decided by the remote tracker / network. -/
inductive TrackerCallOutcome where
  | success (issueKey : Option JStr)
  | httpFail (status : Nat) (body : JStr)
  | thrownAbort
  | thrownError (message : JStr)
  | thrownNonError
deriving DecidableEq

/-- `createJiraTask` from `lib/jira.ts` (the `ActionItem` version).  The
request payload is built from the resolvers above and sent to the tracker;
its effect is abstracted by `outcome`.  A non-success HTTP response produces
a failed `JiraResult` (no exception); network-level failures throw. -/
def createJiraTask (config : JiraConfig) (item : ActionItem)
    (outcome : TrackerCallOutcome) : Except TrackerThrow JiraResult :=
  match outcome with
  | .success issueKey =>
    .ok { summary := item.summary
          success := true
          issueKey := issueKey
          issueUrl := issueKey.map (fun k => browseUrl config.baseUrl k)
          error := none }
  | .httpFail status body =>
    .ok { summary := item.summary
          success := false
          issueKey := none
          issueUrl := none
          error := some ("Jira API error ".toList ++ (toString status).toList
            ++ ": ".toList ++ body.take 500) }
  | .thrownAbort => .error .abortError
  | .thrownError m => .error (.jsError m)
  | .thrownNonError => .error .nonError

/-! ### Issue-creation endpoint (`app/api/create-jira-tasks/route.ts`) -/

/-- One element of the request's `tasks` array before validation: either
`null`/non-object (modelled as `none`) or an object whose `summary` may be
missing or not a string (`summary = none`). -/
structure RouteTask where
  summary : Option JStr
  confidence : ℚ
  source : Option JStr
  assignee : Option JStr
  due : Option JStr
  priority : Option JStr
  labels : List JStr
deriving DecidableEq

/-- The raw `defaultLabels` value accepted by the route's `normalizeLabels`:
an array, a comma-separated string, or anything falsy / other. -/
inductive RawLabels where
  | arr (ls : List RawVal)
  | strv (s : JStr)
  | absent
deriving DecidableEq

/-- The raw, unvalidated `JiraConfig` carried by the request body.  String
fields may be missing or non-strings (`none`); toggles may be absent. -/
structure RawJiraConfig where
  baseUrl : Option JStr
  email : Option JStr
  token : Option JStr
  projectKey : Option JStr
  description : Option JStr
  issueType : Option JStr
  defaultAssignee : Option JStr
  defaultPriority : Option JStr
  defaultLabels : RawLabels
  syncAssignee : Option Bool
  syncDueDate : Option Bool
  syncPriority : Option Bool
  syncLabels : Option Bool
deriving DecidableEq

/-- `toOptionalTrimmed` from the route: trim a string, dropping it when blank
or not a string. -/
def toOptionalTrimmed (value : Option JStr) : Option JStr :=
  value.bind (fun s => let trimmed := jsTrim s
    if trimmed = [] then none else some trimmed)

/-- JavaScript `s.split(",")` (always yields at least one piece). -/
def splitComma : JStr → List JStr
  | [] => [[]]
  | c :: cs =>
    match splitComma cs with
    | [] => [[]]
    | h :: t => if c = ',' then [] :: h :: t else (c :: h) :: t

/-- The array branch of the route's `normalizeLabels`: trim (non-strings
become empty), drop blanks, collapse whitespace runs to dashes; an empty
result becomes `undefined`.  (Unlike `sanitiseLabels`, no deduplication.) -/
def normalizeLabelsArr (ls : List RawVal) : Option (List JStr) :=
  let labels := ((ls.map rawLabelText).filter (fun l => l ≠ [])).map collapseWs
  if labels = [] then none else some labels

/-- `normalizeLabels` from the route: arrays are cleaned element-wise and a
string is split on commas first.  Falsy values (including the empty string)
yield `undefined`. -/
def normalizeLabels : RawLabels → Option (List JStr)
  | .absent => none
  | .arr ls => normalizeLabelsArr ls
  | .strv s => if s = [] then none
      else normalizeLabelsArr ((splitComma s).map RawVal.vstr)

/-- The test `/^https?:\/\//i.test(s)`. -/
def hasHttpProto (s : JStr) : Bool :=
  ("http://".toList).isPrefixOf (s.map Char.toLower) ||
    ("https://".toList).isPrefixOf (s.map Char.toLower)

/-- `sanitizeJiraConfig` from the route (the `ActionItem`-tasks version):
trims the credential fields, forces an `https://` scheme onto the base URL,
uppercases the project key and strips its whitespace, defaults the issue
type to `"Task"` and every sync toggle to `true`. -/
def sanitizeJiraConfig (config : RawJiraConfig) : JiraConfig :=
  let baseUrlRaw := (config.baseUrl.map jsTrim).getD []
  let normalizedBaseUrl :=
    if baseUrlRaw = [] then []
    else if hasHttpProto baseUrlRaw then baseUrlRaw
    else "https://".toList ++ baseUrlRaw
  let projectKeyRaw := (config.projectKey.map jsTrim).getD []
  let descriptionRaw := (config.description.map jsTrim).getD []
  { baseUrl := normalizedBaseUrl
    email := (config.email.map jsTrim).getD []
    token := (config.token.map jsTrim).getD []
    projectKey := (projectKeyRaw.map Char.toUpper).filter (fun c => !c.isWhitespace)
    description := if descriptionRaw = [] then none else some descriptionRaw
    issueType := (toOptionalTrimmed config.issueType) <|> some "Task".toList
    defaultAssignee := toOptionalTrimmed config.defaultAssignee
    defaultPriority := toOptionalTrimmed config.defaultPriority
    defaultLabels := normalizeLabels config.defaultLabels
    syncAssignee := some (if config.syncAssignee = some false then false else true)
    syncDueDate := some (if config.syncDueDate = some false then false else true)
    syncPriority := some (if config.syncPriority = some false then false else true)
    syncLabels := some (if config.syncLabels = some false then false else true) }

/-- The test `/^[A-Z][A-Z0-9]*$/.test(s)`. -/
def projectKeyOk (s : JStr) : Bool :=
  match s with
  | [] => false
  | c :: cs =>
    (decide ('A' ≤ c) && decide (c ≤ 'Z')) &&
      cs.all (fun d => (decide ('A' ≤ d) && decide (d ≤ 'Z')) || d.isDigit)

/-- Success of `new URL(s)`, approximated as an `http(s)://` scheme followed
by a non-empty remainder (after sanitisation the base URL always carries the
scheme when non-empty). -/
def isValidUrlModel (s : JStr) : Bool :=
  hasHttpProto s &&
    !(if ("https://".toList).isPrefixOf (s.map Char.toLower) then s.drop 8
      else s.drop 7).isEmpty

def baseUrlRequiredMsg : JStr := "Базовый URL Jira обязателен".toList

def baseUrlInvalidMsg : JStr := "Некорректный базовый URL Jira".toList

def emailRequiredMsg : JStr := "E-mail пользователя Jira обязателен".toList

def tokenRequiredMsg : JStr := "API token Jira обязателен".toList

def projectKeyRequiredMsg : JStr := "Ключ проекта Jira обязателен".toList

def projectKeyInvalidMsg : JStr :=
  "Ключ проекта Jira должен содержать только латинские заглавные буквы и цифры".toList

/-- `validateJiraConfig` from the route: `null` means the configuration
passed validation, otherwise the first failing check's message is returned. -/
def validateJiraConfig (config : JiraConfig) : Option JStr :=
  if config.baseUrl = [] then some baseUrlRequiredMsg
  else if !isValidUrlModel config.baseUrl then some baseUrlInvalidMsg
  else if config.email = [] then some emailRequiredMsg
  else if config.token = [] then some tokenRequiredMsg
  else if config.projectKey = [] then some projectKeyRequiredMsg
  else if !projectKeyOk config.projectKey then some projectKeyInvalidMsg
  else none

def invalidJsonMsg : JStr := "Некорректный JSON".toList

def emptyTasksDetailMsg : JStr := "Список задач пуст".toList

def configRequiredMsg : JStr := "Конфигурация Jira обязательна".toList

def invalidTaskMsg : JStr := "Некорректное описание задачи".toList

def jiraTimeoutMsg : JStr := "Таймаут запроса к Jira".toList

def unknownErrorMsg : JStr := "Неизвестная ошибка".toList

/-- The `ActionItem` handed to `createJiraTask` once the route has checked
that the task's summary is a non-blank string `s`. -/
def routeItem (t : RouteTask) (s : JStr) : ActionItem :=
  { summary := s
    confidence := t.confidence
    source := t.source
    assignee := t.assignee
    due := t.due
    priority := t.priority
    labels := t.labels }

/-- One iteration of the route's per-task loop: invalid tasks produce a
failed result without contacting the tracker; otherwise `createJiraTask` is
awaited and a thrown exception is converted into a failed result (abort →
timeout message, `Error` → its message, other → generic message). -/
def handleTask (config : JiraConfig) (outcome : TrackerCallOutcome)
    (task : Option RouteTask) : JiraResult :=
  let invalid : JStr → JiraResult := fun s =>
    { summary := s, success := false, issueKey := none, issueUrl := none
      error := some invalidTaskMsg }
  let failed : JStr → JStr → JiraResult := fun s msg =>
    { summary := s, success := false, issueKey := none, issueUrl := none
      error := some msg }
  match task with
  | none => invalid []
  | some t =>
    match t.summary with
    | none => invalid []
    | some s =>
      if jsTrim s = [] then invalid s
      else
        match createJiraTask config (routeItem t s) outcome with
        | .ok r => r
        | .error .abortError => failed s jiraTimeoutMsg
        | .error (.jsError m) => failed s m
        | .error .nonError => failed s unknownErrorMsg

/-- The route's `for (const task of payload.tasks)` loop, indexed so that the
tracker outcome of task `i` is `oracle i`. -/
def processTasksFrom (config : JiraConfig) (oracle : Nat → TrackerCallOutcome) :
    Nat → List (Option RouteTask) → List JiraResult
  | _, [] => []
  | i, t :: ts =>
    handleTask config (oracle i) t :: processTasksFrom config oracle (i + 1) ts

/-- All per-task results, in request order. -/
def processTasks (config : JiraConfig) (oracle : Nat → TrackerCallOutcome)
    (tasks : List (Option RouteTask)) : List JiraResult :=
  processTasksFrom config oracle 0 tasks

/-- The parsed request body (`CreateJiraRequest`). -/
structure CreateJiraRequest where
  tasks : Option (List (Option RouteTask))
  config : Option RawJiraConfig

/-- The JSON response of the route: HTTP status plus either the results
array or an error detail. -/
structure RouteResponse where
  status : Nat
  results : Option (List JiraResult)
  detail : Option JStr
deriving DecidableEq

/-- `POST` of `app/api/create-jira-tasks/route.ts`.  `payload = none` models
a request body that fails JSON parsing. -/
def POSTcreateJiraTasks (payload : Option CreateJiraRequest)
    (oracle : Nat → TrackerCallOutcome) : RouteResponse :=
  match payload with
  | none => ⟨400, none, some invalidJsonMsg⟩
  | some p =>
    match p.tasks with
    | none => ⟨400, none, some emptyTasksDetailMsg⟩
    | some [] => ⟨400, none, some emptyTasksDetailMsg⟩
    | some (t :: ts) =>
      match p.config with
      | none => ⟨400, none, some configRequiredMsg⟩
      | some rawConfig =>
        let sanitizedConfig := sanitizeJiraConfig rawConfig
        match validateJiraConfig sanitizedConfig with
        | some err => ⟨400, none, some err⟩
        | none =>
          let results := processTasks sanitizedConfig oracle (t :: ts)
          ⟨if results.any (fun r => r.success) then 200 else 502,
            some results, none⟩

/-- The failing tracker outcomes the isolation claim quantifies over: a
non-success HTTP response, an abort, a thrown `Error` (whose transport
message is non-empty), or a thrown non-`Error`. -/
def trackerFailure : TrackerCallOutcome → Prop
  | .success _ => False
  | .httpFail _ _ => True
  | .thrownAbort => True
  | .thrownError m => m ≠ []
  | .thrownNonError => True

/-! ### Extraction client (`lib/nlp.ts`) -/

/-- A task as parsed from the extraction service's JSON, before the client
defaults a missing/non-array `labels` field to `[]`. -/
structure PreTask where
  summary : JStr
  confidence : ℚ
  source : Option JStr
  assignee : Option JStr
  due : Option JStr
  priority : Option JStr
  labels : Option (List JStr)
deriving DecidableEq

/-- `task => ({ ...task, labels: Array.isArray(task.labels) ? task.labels : [] })`. -/
def fillLabels (t : PreTask) : ActionItem :=
  { summary := t.summary
    confidence := t.confidence
    source := t.source
    assignee := t.assignee
    due := t.due
    priority := t.priority
    labels := t.labels.getD [] }

/-- Outcome of one attempt of the extraction call (`fetchWithTimeout` plus
response handling): success with a parsed task list, a timeout abort, a
non-success HTTP status, or any other failure (fetch rejection, body parse
failure, ...) that is not converted into an `NLPServiceError`. -/
inductive AttemptOutcome where
  | ok (tasks : List PreTask)
  | timeout
  | badStatus (status : Nat)
  | transportError
deriving DecidableEq

/-- `NLPServiceError` from `lib/nlp.ts`. -/
structure NLPServiceError where
  message : JStr
  status : Option Nat
deriving DecidableEq

def nlpTimeoutError : NLPServiceError :=
  ⟨"Превышено время ожидания ответа от NLP-сервиса".toList, none⟩

def nlpStatusError (s : Nat) : NLPServiceError :=
  ⟨"Ошибка NLP-сервиса: ".toList ++ (toString s).toList, some s⟩

def nlpGenericError : NLPServiceError :=
  ⟨"Не удалось связаться с NLP-сервисом".toList, none⟩

/-- What the `catch` block of `extractTasks` captures for one attempt: a
typed `NLPServiceError` or some other thrown value. -/
inductive CaughtError where
  | nlp (e : NLPServiceError)
  | other
deriving DecidableEq

/-- The body of one loop iteration of `extractTasks`: a timeout is rethrown
by `fetchWithTimeout` as a typed error, a non-success status throws a typed
error carrying the status, a transport failure propagates untyped, and on
success the parsed tasks get their labels defaulted. -/
def attemptResult : AttemptOutcome → Except CaughtError (List ActionItem)
  | .ok ts => .ok (ts.map fillLabels)
  | .timeout => .error (.nlp nlpTimeoutError)
  | .badStatus s => .error (.nlp (nlpStatusError s))
  | .transportError => .error .other

/-- The retry loop of `extractTasks`: `remaining` counts the retries still
allowed after the current attempt; the error kept is always the one of the
last attempt executed. -/
def runAttempts (oracle : Nat → AttemptOutcome) :
    Nat → Nat → Except CaughtError (List ActionItem)
  | attempt, remaining =>
    match attemptResult (oracle attempt) with
    | .ok v => .ok v
    | .error e =>
      match remaining with
      | 0 => .error e
      | r + 1 => runAttempts oracle (attempt + 1) r

/-- Default of `NLP_SERVICE_RETRY_COUNT`. -/
def RETRY_COUNT : Nat := 2

/-- `extractTasks` from `lib/nlp.ts`: run up to `retryCount + 1` attempts;
after exhausting them rethrow the captured error when it is typed, else
raise the generic connectivity error. -/
def extractTasks (oracle : Nat → AttemptOutcome) (retryCount : Nat) :
    Except NLPServiceError (List ActionItem) :=
  match runAttempts oracle 0 retryCount with
  | .ok v => .ok v
  | .error (.nlp e) => .error e
  | .error .other => .error nlpGenericError

/-- First successful attempt among indices `attempt ..= attempt + remaining`
(specification-side search used to state what the retry loop returns). -/
def firstOkFrom (oracle : Nat → AttemptOutcome) :
    Nat → Nat → Option (List PreTask)
  | attempt, remaining =>
    match oracle attempt with
    | .ok ts => some ts
    | _ =>
      match remaining with
      | 0 => none
      | r + 1 => firstOkFrom oracle (attempt + 1) r

/-- The typed error an attempt outcome would capture, if any. -/
def typedErrorOf : AttemptOutcome → Option NLPServiceError
  | .timeout => some nlpTimeoutError
  | .badStatus s => some (nlpStatusError s)
  | .ok _ => none
  | .transportError => none

/-- Specification-side description of `extractTasks` (per the amended
claim): return the first success within the attempt budget; otherwise the
result is decided by the final attempt alone — its typed error when it has
one, else the generic connectivity error. -/
def specExtract (oracle : Nat → AttemptOutcome) (retryCount : Nat) :
    Except NLPServiceError (List ActionItem) :=
  match firstOkFrom oracle 0 retryCount with
  | some ts => .ok (ts.map fillLabels)
  | none =>
    match typedErrorOf (oracle retryCount) with
    | some e => .error e
    | none => .error nlpGenericError

/-! ### Workflow orchestration (`hooks/useWorkflowManager.ts`) -/

/-- `WorkflowStatus` from the hook. -/
inductive WorkflowStatus where
  | idle
  | uploading
  | transcribing
  | extracting
  | ready
  | submittingJira
  | done
  | error
deriving DecidableEq

/-- `WorkflowProgress` from the hook. -/
structure WorkflowProgress where
  stage : JStr
  percentage : Nat
deriving DecidableEq

/-- `WorkflowState` from the hook. -/
structure WorkflowState where
  status : WorkflowStatus
  transcript : Option JStr
  tasks : List ActionItem
  jiraResults : List JiraResult
  errorMessage : Option JStr
  progress : WorkflowProgress
deriving DecidableEq

def idleStageMsg : JStr := "Ожидание загрузки".toList

/-- `initialState` from the hook. -/
def initialState : WorkflowState :=
  { status := .idle
    transcript := none
    tasks := []
    jiraResults := []
    errorMessage := none
    progress := ⟨idleStageMsg, 0⟩ }

def noTasksMsg : JStr := "Нет задач для отправки в Jira".toList

def submitStageMsg : JStr := "Отправка задач в Jira...".toList

def submitErrorStageMsg : JStr := "Произошла ошибка".toList

def doneStageMsg : JStr := "Процесс завершён".toList

def doneWithErrorsStageMsg : JStr := "Процесс завершён с ошибками".toList

def partialFailureMsg : JStr := "Часть задач не удалось создать в Jira".toList

/-- Outcome of the hook's single `fetch("/api/create-jira-tasks")` call: a
response (with `ok` flag, parsed `results` — `none` when the body had no
usable `results` array — and optional `detail`), or a thrown error whose
message is `none` for non-`Error` values. -/
inductive SubmitFetchOutcome where
  | respond (ok : Bool) (results : Option (List JiraResult)) (detail : Option JStr)
  | thrownMsg (message : Option JStr)
deriving DecidableEq

/-- `updateHistoryWithJira` from the hook: patch the active record's
`jiraResults`, provided an active record and a non-empty result list exist. -/
def updateHistoryWithJira (activeMeetingId : Option JStr)
    (results : List JiraResult) (fresh : JStr × JStr)
    (history : List MeetingSummary) : List MeetingSummary :=
  match activeMeetingId with
  | none => history
  | some id =>
    if results = [] then history
    else replaceMeetingSummary fresh id
      (fun summary => { summary with jiraResults := some results }) history

/-- `submitToJira` from the hook, returning the final workflow state, the
(possibly patched) history, and the number of network calls made to the
tracker endpoint.  A missing `results` field of a response is read as `[]`
(the hook's `data.results ?? []` / `Array.isArray` checks). -/
def submitToJira (fresh : JStr × JStr) (st : WorkflowState)
    (activeMeetingId : Option JStr) (history : List MeetingSummary)
    (net : SubmitFetchOutcome) :
    WorkflowState × List MeetingSummary × Nat :=
  if st.tasks = [] then
    ({ st with status := .error, errorMessage := some noTasksMsg }, history, 0)
  else
    let st1 := { st with
      status := .submittingJira
      errorMessage := none
      progress := ⟨submitStageMsg, 95⟩ }
    match net with
    | .thrownMsg m =>
      ({ st1 with
          status := .error
          errorMessage := some (m.getD unknownErrorMsg)
          progress := ⟨submitErrorStageMsg, st1.progress.percentage⟩ },
        history, 1)
    | .respond ok results detail =>
      let dataResults := results.getD []
      let history2 :=
        if dataResults = [] then history
        else updateHistoryWithJira activeMeetingId dataResults fresh history
      if ok then
        ({ st1 with
            status := .done
            jiraResults := dataResults
            progress := ⟨doneStageMsg, 100⟩ }, history2, 1)
      else
        ({ st1 with
            status := .done
            jiraResults := dataResults
            errorMessage := some (detail.getD partialFailureMsg)
            progress := ⟨doneWithErrorsStageMsg, 100⟩ }, history2, 1)

/-! ### Helper lemmas -/

theorem foldl_setAdd_eq (l : List JStr) :
    ∀ acc : List JStr,
      l.foldl setAdd acc
        = acc ++ dedupFirst (l.filter (fun x => decide (x ∉ acc))) := by
  induction l with
  | nil => intro acc; simp [dedupFirst]
  | cons x xs ih =>
    intro acc
    by_cases hx : x ∈ acc
    · have hset : setAdd acc x = acc := by simp [setAdd, hx]
      rw [List.foldl_cons, hset, ih acc]
      have : (x :: xs).filter (fun y => decide (y ∉ acc))
          = xs.filter (fun y => decide (y ∉ acc)) := by
        simp [List.filter_cons, hx]
      rw [this]
    · have hset : setAdd acc x = acc ++ [x] := by simp [setAdd, hx]
      rw [List.foldl_cons, hset, ih (acc ++ [x])]
      have hfil : xs.filter (fun y => decide (y ∉ acc ++ [x]))
          = (xs.filter (fun y => decide (y ≠ x))).filter
              (fun y => decide (y ∉ acc)) := by
        rw [List.filter_filter]
        apply List.filter_congr
        intro a _
        by_cases h1 : a ∈ acc <;> by_cases h2 : a = x <;> simp [h1, h2]
      have hcons : (x :: xs).filter (fun y => decide (y ∉ acc))
          = x :: xs.filter (fun y => decide (y ∉ acc)) := by
        simp [List.filter_cons, hx]
      rw [hfil, hcons, dedupFirst]
      have hcomm : (xs.filter (fun y => decide (y ≠ x))).filter
            (fun y => decide (y ∉ acc))
          = (xs.filter (fun y => decide (y ∉ acc))).filter
              (fun y => decide (y ≠ x)) := by
        rw [List.filter_filter, List.filter_filter]
        apply List.filter_congr
        intro a _
        by_cases h1 : a ∈ acc <;> by_cases h2 : a = x <;> simp [h1, h2]
      rw [hcomm]
      simp

theorem setFromList_eq_dedupFirst (l : List JStr) :
    setFromList l = dedupFirst l := by
  have h := foldl_setAdd_eq l []
  have hl : l.filter (fun x => decide (x ∉ ([] : List JStr))) = l := by
    apply List.filter_eq_self.mpr
    intro a _
    simp
  rw [setFromList, h, hl]
  simp

theorem mem_of_mem_dedupFirst :
    ∀ (l : List JStr) (a : JStr), a ∈ dedupFirst l → a ∈ l := by
  intro l
  induction l using dedupFirst.induct with
  | case1 =>
    intro a h
    simp [dedupFirst] at h
  | case2 x xs ih =>
    intro a h
    rw [dedupFirst] at h
    rcases List.mem_cons.mp h with h1 | h2
    · exact h1 ▸ List.mem_cons_self _ _
    · exact List.mem_cons_of_mem _ (List.mem_filter.mp (ih _ h2)).1

theorem dedupFirst_nodup : ∀ l : List JStr, (dedupFirst l).Nodup := by
  intro l
  induction l using dedupFirst.induct with
  | case1 => simp [dedupFirst]
  | case2 x xs ih =>
    rw [dedupFirst]
    refine List.nodup_cons.mpr ⟨?_, ih⟩
    intro hmem
    have h := (List.mem_filter.mp (mem_of_mem_dedupFirst _ _ hmem)).2
    simp at h

/-! ### Claim C9 -/

/-- C9: label sanitation trims each entry, drops entries that become empty,
collapses each internal whitespace run to the `'-'` join character, and
removes duplicates case-sensitively keeping the first occurrence; in
particular `["Bug ", " bug"]` yields the two distinct entries
`["Bug", "bug"]`. -/
theorem C9_label_sanitation :
    (∀ value : Option (List RawVal),
        sanitiseLabels value = dedupFirst (cleanedLabels value)
      ∧ (sanitiseLabels value).Nodup)
    ∧ sanitiseLabels (some [.vstr "Bug ".toList, .vstr " bug".toList])
        = ["Bug".toList, "bug".toList] := by
  constructor
  · intro value
    have heq : sanitiseLabels value = dedupFirst (cleanedLabels value) := by
      cases value with
      | none => simp [sanitiseLabels, cleanedLabels, dedupFirst]
      | some arr => simp [sanitiseLabels, cleanedLabels, setFromList_eq_dedupFirst]
    exact ⟨heq, heq ▸ dedupFirst_nodup _⟩
  · decide

/-! ### Claim C4 -/

set_option maxRecDepth 4000 in
/-- C4 counterexample: for a 281-character transcript the preview is the
280-character slice plus the truncation marker, i.e. 281 characters — it is
not within the claimed 280-character cap. -/
theorem C4_preview_exceeds_cap_cex :
    280 < (createPreview (List.replicate 281 'a')).length := by decide

/-- C4 (amended): the preview equals the trimmed transcript when that is at
most 280 characters; otherwise it is the 280-character slice followed by the
three-character truncation marker committed in the source, so the preview of
a long transcript is 283 characters — it exceeds the stated 280-character
cap. -/
theorem C4_preview_truncation_amended :
    ∀ transcript : JStr,
      createPreview transcript
        = (jsTrim transcript).take 280
          ++ (if 280 < (jsTrim transcript).length then ellipsisMarker else [])
      ∧ (createPreview transcript).length
          = if (jsTrim transcript).length ≤ 280 then (jsTrim transcript).length
            else 283 := by
  intro t
  have hm : ellipsisMarker.length = 3 := rfl
  by_cases h : (jsTrim t).length ≤ 280
  · constructor
    · simp [createPreview, h, List.take_of_length_le h, Nat.not_lt.mpr h]
    · simp [createPreview, h]
  · push_neg at h
    constructor
    · simp [createPreview, Nat.not_le.mpr h, h]
    · simp [createPreview, Nat.not_le.mpr h, List.length_take, hm]
      omega

/-! ### Claim C5 -/

/-- C5 counterexample: sanitising a raw value with no usable summary (for
example `null`) produces an `ActionItem` whose summary is the empty string,
refuting the claim that every sanitized item has a non-empty summary. -/
theorem C5_empty_summary_cex :
    (sanitiseActionItem none).summary = [] := by decide

/-- C5 (amended): the sanitized summary is the normalised (trimmed) raw
summary when the raw summary normalises to text, and the empty string when
it does not; in particular a string summary is trimmed, and becomes empty
exactly when it was blank. -/
theorem C5_summary_amended :
    ∀ raw : Option RawActionItem,
      (normaliseString (rawSummaryOf raw) = none →
        (sanitiseActionItem raw).summary = [])
      ∧ (∀ t : JStr, normaliseString (rawSummaryOf raw) = some t →
          (sanitiseActionItem raw).summary = t)
      ∧ (∀ s : JStr, rawSummaryOf raw = .vstr s →
          (sanitiseActionItem raw).summary
            = if jsTrim s = [] then [] else jsTrim s) := by
  intro raw
  refine ⟨?_, ?_, ?_⟩
  · intro h
    simp [sanitiseActionItem, rawSummaryOf] at *
    simp [h]
  · intro t h
    simp [sanitiseActionItem, rawSummaryOf] at *
    simp [h]
  · intro s h
    simp [sanitiseActionItem, rawSummaryOf] at *
    rw [h]
    by_cases hs : jsTrim s = [] <;> simp [normaliseString, hs]

/-- Witness for the amended C5 theorem at a concrete blank-padded summary. -/
theorem C5_summary_amended_witness :
    (sanitiseActionItem
        (some { emptyRawActionItem with summary := .vstr "  hi  ".toList })).summary
      = if jsTrim "  hi  ".toList = [] then [] else jsTrim "  hi  ".toList :=
  (C5_summary_amended _).2.2 _ rfl

theorem samePair_symm {a b : MeetingSummary} (h : samePair a b) : samePair b a :=
  ⟨h.1.symm, h.2.symm⟩

/-! ### Claim C2 -/

/-- C2 counterexample: a starting history may already contain two records
with the same `(sourceKind, transcript)` pair; an upsert of a record with a
different pair leaves both in place, so the persisted history does not
contain at most one record per pair. -/
theorem C2_duplicate_pair_survives_cex :
    ((persistMeetingSummary ("f".toList, "g".toList)
        ⟨"d".toList, .upload, "c".toList, "u".toList, "u".toList, [], none, none⟩
        [⟨"a".toList, .upload, "c".toList, "t".toList, "t".toList, [], none, none⟩,
         ⟨"b".toList, .upload, "c".toList, "t".toList, "t".toList, [], none, none⟩]).filter
      (fun r => decide (r.source = .upload ∧ r.transcript = "t".toList))).length
      = 2 := by
  decide

/-- C2 (amended): after any upsert the history has at most 10 entries, the
sanitised upserted record is the most-recent entry, and no other entry
shares its `(sourceKind, transcript)` pair; pre-existing duplicates of pairs
that are not upserted may survive, but pairwise-distinctness of the
sanitised starting history is preserved (so histories built from upserts
alone hold at most one record per pair). -/
theorem C2_upsert_cap_and_dedup :
    ∀ (fresh : JStr × JStr) (summary : MeetingSummary)
      (ex : List MeetingSummary),
      (persistMeetingSummary fresh summary ex).length ≤ HISTORY_LIMIT
      ∧ (persistMeetingSummary fresh summary ex).head?
          = some (sanitiseMeetingSummary fresh summary)
      ∧ (∀ r ∈ (persistMeetingSummary fresh summary ex).tail,
          ¬ samePair r (sanitiseMeetingSummary fresh summary))
      ∧ ((ex.map (sanitiseMeetingSummary fresh)).Pairwise
            (fun a b => ¬ samePair a b) →
          (persistMeetingSummary fresh summary ex).Pairwise
            (fun a b => ¬ samePair a b)) := by
  intro fresh summary ex
  set s := sanitiseMeetingSummary fresh summary with hs
  set wd := (ex.map (sanitiseMeetingSummary fresh)).filter
    (fun item => decide (¬ samePair item s)) with hwd
  have hres : persistMeetingSummary fresh summary ex = s :: wd.take 9 := by
    rw [persistMeetingSummary, HISTORY_LIMIT]
    rfl
  have hmemwd : ∀ r ∈ wd, ¬ samePair r s := by
    intro r hr
    have := (List.mem_filter.mp hr).2
    simpa using this
  refine ⟨?_, ?_, ?_, ?_⟩
  · rw [hres, HISTORY_LIMIT]
    simp [List.length_take]
  · rw [hres]
    rfl
  · intro r hr
    rw [hres] at hr
    simp only [List.tail_cons] at hr
    exact hmemwd r (List.Sublist.mem hr (List.take_sublist 9 wd))
  · intro hp
    rw [hres]
    refine List.pairwise_cons.mpr ⟨?_, ?_⟩
    · intro b hb hsb
      exact hmemwd b (List.Sublist.mem hb (List.take_sublist 9 wd))
        (samePair_symm hsb)
    · exact (hp.filter _).sublist (List.take_sublist 9 wd)

/-- Witness for the amended C2 theorem: upserting into a pairwise-distinct
one-record history yields a pairwise-distinct history. -/
theorem C2_upsert_cap_and_dedup_witness :
    (persistMeetingSummary ("f".toList, "g".toList)
        ⟨"d".toList, .upload, "c".toList, "u".toList, "u".toList, [], none, none⟩
        [⟨"a".toList, .upload, "c".toList, "t".toList, "t".toList, [], none, none⟩]).Pairwise
      (fun a b => ¬ samePair a b) :=
  (C2_upsert_cap_and_dedup _ _ _).2.2.2 (by decide)

/-! ### Claim C6 -/

/-- C6: on a history of sanitized records, `replaceMeetingSummary` keeps
length and order, applies the updater (re-sanitised) to the records whose id
matches, and returns every record with a non-matching id unchanged. -/
theorem C6_patch_frame :
    ∀ (fresh : JStr × JStr) (id : JStr)
      (updater : MeetingSummary → MeetingSummary) (ex : List MeetingSummary),
      (∀ r ∈ ex, sanitiseMeetingSummary fresh r = r) →
      (replaceMeetingSummary fresh id updater ex).length = ex.length
      ∧ ∀ i : Nat,
          (replaceMeetingSummary fresh id updater ex)[i]?
            = (ex[i]?).map (fun r =>
                if r.id = id then sanitiseMeetingSummary fresh (updater r)
                else r) := by
  intro fresh id updater ex hfix
  have h1 : ex.map (sanitiseMeetingSummary fresh) = ex.map (fun r => r) :=
    List.map_congr_left hfix
  have hbase : ex.map (sanitiseMeetingSummary fresh) = ex := by
    rw [h1]
    simp
  constructor
  · simp [replaceMeetingSummary, hbase]
  · intro i
    simp [replaceMeetingSummary, hbase]

/-- Witness for C6 on a concrete sanitized one-record history. -/
theorem C6_patch_frame_witness :
    (replaceMeetingSummary ("f".toList, "g".toList) "a".toList (fun s => s)
        [⟨"a".toList, .upload, "c".toList, "t".toList, "t".toList, [], none,
          none⟩]).length = 1 := by
  exact (C6_patch_frame _ _ _ _ (by decide)).1

theorem foldl_trimAdd_eq (ls : List JStr) :
    ∀ acc : List JStr,
      ls.foldl (fun acc label =>
          let trimmed := jsTrim label
          if trimmed = [] then acc else setAdd acc (collapseWs trimmed)) acc
        = (((ls.map jsTrim).filter (fun l => l ≠ [])).map collapseWs).foldl
            setAdd acc := by
  induction ls with
  | nil => intro acc; rfl
  | cons x xs ih =>
    intro acc
    by_cases hx : jsTrim x = []
    · simp [List.foldl_cons, hx, List.filter_cons, ih]
    · simp [List.foldl_cons, hx, List.filter_cons, ih]

/-! ### Claim C3 -/

/-- C3 counterexample: with label syncing enabled and the item carrying its
own label `"x"`, the resolved label list still contains the config default
label `"y"` — the item value does not replace the tracker default, the two
are united. -/
theorem C3_labels_union_cex :
    normaliseLabels
        ⟨"s".toList, 0, none, none, none, none, ["x".toList]⟩
        ⟨"https://j".toList, "e".toList, "t".toList, "P".toList, none, none,
          none, none, some ["y".toList], none, none, none, some true⟩
      = some ["y".toList, "x".toList]
    ∧ "y".toList ∉ (["x".toList] : List JStr) := by
  decide

/-- C3 (amended): assignee and priority follow the toggle rule (tracker
default when syncing is disabled, item value falling back to the tracker
default when enabled); the due date follows the same rule with no tracker
default (so disabled syncing clears it); labels do not follow it — the
tracker default labels are always included and the item labels are added
only when syncing is enabled, the union being trimmed, cleaned of blanks,
whitespace-collapsed and first-occurrence deduplicated. -/
theorem C3_resolvers_amended :
    ∀ (item : ActionItem) (config : JiraConfig),
      resolveAssignee item config
        = (specToggleResolve config.syncAssignee item.assignee
            config.defaultAssignee).bind classifyAssignee
      ∧ resolveDueDate item config
        = specToggleResolve config.syncDueDate item.due none
      ∧ resolvePriority item config
        = specToggleResolve config.syncPriority item.priority
            config.defaultPriority
      ∧ normaliseLabels item config
        = specLabelsAmended config.syncLabels item.labels
            (config.defaultLabels.getD []) := by
  intro item config
  refine ⟨?_, ?_, ?_, ?_⟩
  · simp only [resolveAssignee, specToggleResolve]
    cases (if config.syncAssignee = some false then config.defaultAssignee
      else item.assignee <|> config.defaultAssignee) <;> rfl
  · by_cases h : config.syncDueDate = some false <;>
      simp [resolveDueDate, specToggleResolve, h]
  · rfl
  · simp only [normaliseLabels, specLabelsAmended, foldl_trimAdd_eq,
      ← setFromList_eq_dedupFirst]
    rfl

theorem runAttempts_eq (oracle : Nat → AttemptOutcome) :
    ∀ (remaining attempt : Nat),
      runAttempts oracle attempt remaining
        = match firstOkFrom oracle attempt remaining with
          | some ts => .ok (ts.map fillLabels)
          | none => attemptResult (oracle (attempt + remaining)) := by
  intro remaining
  induction remaining with
  | zero =>
    intro attempt
    rw [runAttempts, firstOkFrom]
    cases h : oracle attempt <;> simp [attemptResult, h]
  | succ r ih =>
    intro attempt
    rw [runAttempts, firstOkFrom]
    have harith : attempt + (r + 1) = (attempt + 1) + r := by omega
    cases h : oracle attempt with
    | ok ts => simp [attemptResult, h]
    | timeout => simp [attemptResult, h, ih (attempt + 1), harith]
    | badStatus s => simp [attemptResult, h, ih (attempt + 1), harith]
    | transportError => simp [attemptResult, h, ih (attempt + 1), harith]

theorem firstOkFrom_none_last (oracle : Nat → AttemptOutcome) :
    ∀ (remaining attempt : Nat),
      firstOkFrom oracle attempt remaining = none →
      ∀ ts, oracle (attempt + remaining) ≠ .ok ts := by
  intro remaining
  induction remaining with
  | zero =>
    intro attempt h ts hok
    rw [firstOkFrom] at h
    rw [Nat.add_zero] at hok
    rw [hok] at h
    simp at h
  | succ r ih =>
    intro attempt h ts hok
    rw [firstOkFrom] at h
    have harith : attempt + (r + 1) = (attempt + 1) + r := by omega
    cases ho : oracle attempt with
    | ok ts2 => rw [ho] at h; simp at h
    | timeout =>
      rw [ho] at h
      simp at h
      exact ih (attempt + 1) h ts (harith ▸ hok)
    | badStatus s =>
      rw [ho] at h
      simp at h
      exact ih (attempt + 1) h ts (harith ▸ hok)
    | transportError =>
      rw [ho] at h
      simp at h
      exact ih (attempt + 1) h ts (harith ▸ hok)

theorem extractTasks_eq_spec (oracle : Nat → AttemptOutcome)
    (retryCount : Nat) :
    extractTasks oracle retryCount = specExtract oracle retryCount := by
  rw [extractTasks, specExtract, runAttempts_eq]
  cases hfo : firstOkFrom oracle 0 retryCount with
  | some ts => simp
  | none =>
    have hno := firstOkFrom_none_last oracle retryCount 0 hfo
    rw [Nat.zero_add] at hno
    simp only [Nat.zero_add]
    cases ho : oracle retryCount with
    | ok ts => exact absurd ho (hno ts)
    | timeout => simp [attemptResult, typedErrorOf]
    | badStatus s => simp [attemptResult, typedErrorOf]
    | transportError => simp [attemptResult, typedErrorOf]

theorem firstOkFrom_congr (o o2 : Nat → AttemptOutcome) :
    ∀ (remaining attempt : Nat),
      (∀ i, attempt ≤ i → i ≤ attempt + remaining → o i = o2 i) →
      firstOkFrom o attempt remaining = firstOkFrom o2 attempt remaining := by
  intro remaining
  induction remaining with
  | zero =>
    intro attempt h
    rw [firstOkFrom, firstOkFrom, h attempt (Nat.le_refl _) (by omega)]
  | succ r ih =>
    intro attempt h
    rw [firstOkFrom, firstOkFrom, h attempt (Nat.le_refl _) (by omega)]
    have hr : ∀ i, attempt + 1 ≤ i → i ≤ (attempt + 1) + r → o i = o2 i := by
      intro i h1 h2
      exact h i (by omega) (by omega)
    cases o2 attempt with
    | ok ts => rfl
    | timeout => simp [ih (attempt + 1) hr]
    | badStatus s => simp [ih (attempt + 1) hr]
    | transportError => simp [ih (attempt + 1) hr]

theorem extractTasks_congr (o o2 : Nat → AttemptOutcome) (retryCount : Nat)
    (h : ∀ i, i ≤ retryCount → o i = o2 i) :
    extractTasks o retryCount = extractTasks o2 retryCount := by
  rw [extractTasks_eq_spec, extractTasks_eq_spec, specExtract, specExtract]
  rw [firstOkFrom_congr o o2 retryCount 0 (by intro i h1 h2; exact h i (by omega))]
  rw [h retryCount (Nat.le_refl _)]

/-! ### Claim C7 -/

/-- C7 counterexample: attempt 0 fails with a typed status error (HTTP 500),
but the two retries fail with untyped transport errors; `extractTasks` then
raises the generic connectivity error even though a typed error was captured
during the run — refuting the claim that the generic error is raised only
when no typed error was captured. -/
theorem C7_generic_error_despite_typed_cex :
    (fun n => if n = 0 then AttemptOutcome.badStatus 500
      else AttemptOutcome.transportError) 0 = AttemptOutcome.badStatus 500
    ∧ extractTasks
        (fun n => if n = 0 then AttemptOutcome.badStatus 500
          else AttemptOutcome.transportError) 2
        = .error nlpGenericError
    ∧ nlpGenericError ≠ nlpStatusError 500 := by
  refine ⟨rfl, rfl, by decide⟩

/-- C7 (amended): the client consults the remote call only on attempts
`0 ..= retryCount` (at most 3 total with the default count of 2 extra
retries), returning the first success and retrying on any failure; when all
attempts fail, the raised error is decided by the final attempt alone — its
typed `NLPServiceError` (carrying the remote status when available) when the
final failure was typed, and the generic connectivity error when the final
failure was untyped, even if an earlier attempt captured a typed error. -/
theorem C7_retry_amended :
    ∀ (oracle : Nat → AttemptOutcome) (retryCount : Nat),
      extractTasks oracle retryCount = specExtract oracle retryCount
      ∧ ∀ oracle2 : Nat → AttemptOutcome,
          (∀ i, i ≤ retryCount → oracle i = oracle2 i) →
          extractTasks oracle retryCount = extractTasks oracle2 retryCount :=
  fun oracle retryCount =>
    ⟨extractTasks_eq_spec oracle retryCount,
      fun oracle2 h => extractTasks_congr oracle oracle2 retryCount h⟩

/-- Witness for the amended C7 theorem: a concrete always-successful oracle,
and agreement with an oracle that differs only beyond attempt 2. -/
theorem C7_retry_amended_witness :
    extractTasks (fun _ => AttemptOutcome.ok []) 2
        = specExtract (fun _ => AttemptOutcome.ok []) 2
    ∧ extractTasks (fun _ => AttemptOutcome.ok []) 2
        = extractTasks
            (fun i => if i ≤ 2 then AttemptOutcome.ok []
              else AttemptOutcome.timeout) 2 :=
  ⟨(C7_retry_amended _ 2).1,
    (C7_retry_amended _ 2).2 _ (by intro i h; simp [h])⟩

theorem processTasksFrom_length (config : JiraConfig)
    (oracle : Nat → TrackerCallOutcome) :
    ∀ (ts : List (Option RouteTask)) (i : Nat),
      (processTasksFrom config oracle i ts).length = ts.length := by
  intro ts
  induction ts with
  | nil => intro i; rfl
  | cons t ts ih =>
    intro i
    rw [processTasksFrom]
    simp [ih (i + 1)]

theorem processTasksFrom_getElem (config : JiraConfig)
    (oracle : Nat → TrackerCallOutcome) :
    ∀ (ts : List (Option RouteTask)) (i j : Nat),
      (processTasksFrom config oracle i ts)[j]?
        = (ts[j]?).map (fun t => handleTask config (oracle (i + j)) t) := by
  intro ts
  induction ts with
  | nil => intro i j; simp [processTasksFrom]
  | cons t ts ih =>
    intro i j
    cases j with
    | zero => simp [processTasksFrom]
    | succ j =>
      rw [processTasksFrom]
      simp only [List.getElem?_cons_succ]
      rw [ih (i + 1) j]
      have harith : i + (j + 1) = (i + 1) + j := by omega
      rw [harith]

theorem handleTask_failure (c : JiraConfig) (out : TrackerCallOutcome)
    (t : Option RouteTask) (hf : trackerFailure out) :
    (handleTask c out t).success = false
    ∧ ∃ e, (handleTask c out t).error = some e ∧ e ≠ [] := by
  cases t with
  | none => exact ⟨rfl, invalidTaskMsg, rfl, by decide⟩
  | some rt =>
    cases hsum : rt.summary with
    | none => exact ⟨by simp [handleTask, hsum], invalidTaskMsg,
        by simp [handleTask, hsum], by decide⟩
    | some s =>
      by_cases hts : jsTrim s = []
      · exact ⟨by simp [handleTask, hsum, hts], invalidTaskMsg,
          by simp [handleTask, hsum, hts], by decide⟩
      · cases out with
        | success k => exact absurd hf (by simp [trackerFailure])
        | httpFail status body =>
          refine ⟨by simp [handleTask, hsum, hts, createJiraTask], ?_⟩
          refine ⟨"Jira API error ".toList ++ (toString status).toList
            ++ ": ".toList ++ body.take 500,
            by simp [handleTask, hsum, hts, createJiraTask], ?_⟩
          apply List.append_ne_nil_of_left_ne_nil
          apply List.append_ne_nil_of_left_ne_nil
          apply List.append_ne_nil_of_left_ne_nil
          decide
        | thrownAbort =>
          exact ⟨by simp [handleTask, hsum, hts, createJiraTask],
            jiraTimeoutMsg, by simp [handleTask, hsum, hts, createJiraTask],
            by decide⟩
        | thrownError m =>
          exact ⟨by simp [handleTask, hsum, hts, createJiraTask],
            m, by simp [handleTask, hsum, hts, createJiraTask], hf⟩
        | thrownNonError =>
          exact ⟨by simp [handleTask, hsum, hts, createJiraTask],
            unknownErrorMsg, by simp [handleTask, hsum, hts, createJiraTask],
            by decide⟩

/-! ### Claim C1 -/

/-- C1: for a request whose task list is non-empty and whose configuration
passes validation, the endpoint returns exactly one result per task in
request order; each result is determined by its own task and its own tracker
outcome alone (so one task's failure cannot affect another's processing),
and a non-success tracker response or a thrown transport/timeout error for a
task yields a failed result with a non-empty error for that task. -/
theorem C1_route_results_per_task :
    ∀ (p : CreateJiraRequest) (oracle : Nat → TrackerCallOutcome)
      (ts : List (Option RouteTask)) (rawConfig : RawJiraConfig),
      p.tasks = some ts → ts ≠ [] → p.config = some rawConfig →
      validateJiraConfig (sanitizeJiraConfig rawConfig) = none →
      (POSTcreateJiraTasks (some p) oracle).results
          = some (processTasks (sanitizeJiraConfig rawConfig) oracle ts)
      ∧ (processTasks (sanitizeJiraConfig rawConfig) oracle ts).length
          = ts.length
      ∧ (∀ j : Nat,
          (processTasks (sanitizeJiraConfig rawConfig) oracle ts)[j]?
            = (ts[j]?).map (fun t =>
                handleTask (sanitizeJiraConfig rawConfig) (oracle j) t))
      ∧ (∀ (c : JiraConfig) (out : TrackerCallOutcome) (t : Option RouteTask),
          trackerFailure out →
          (handleTask c out t).success = false
          ∧ ∃ e, (handleTask c out t).error = some e ∧ e ≠ []) := by
  intro p oracle ts rawConfig htasks hne hconfig hvalid
  refine ⟨?_, processTasksFrom_length _ _ _ _, ?_, ?_⟩
  · cases ts with
    | nil => exact absurd rfl hne
    | cons t ts =>
      simp [POSTcreateJiraTasks, htasks, hconfig, hvalid]
  · intro j
    have h := processTasksFrom_getElem (sanitizeJiraConfig rawConfig) oracle ts 0 j
    simpa [processTasks] using h
  · intro c out t hf
    exact handleTask_failure c out t hf

/-- Witness for C1: one-task request with a valid configuration; the tracker
rejects the task with an HTTP 500. -/
theorem C1_route_results_per_task_witness :
    (POSTcreateJiraTasks
        (some ⟨some [some ⟨some "Fix build".toList, 1, none, none, none, none, []⟩],
          some ⟨some "https://example.atlassian.net".toList, some "e@x".toList,
            some "tok".toList, some "AB1".toList, none, none, none, none,
            .absent, none, none, none, none⟩⟩)
        (fun _ => .httpFail 500 "oops".toList)).results
      = some (processTasks
          (sanitizeJiraConfig
            ⟨some "https://example.atlassian.net".toList, some "e@x".toList,
              some "tok".toList, some "AB1".toList, none, none, none, none,
              .absent, none, none, none, none⟩)
          (fun _ => .httpFail 500 "oops".toList)
          [some ⟨some "Fix build".toList, 1, none, none, none, none, []⟩]) := by
  exact (C1_route_results_per_task _ _ _ _ rfl (by decide) rfl (by decide)).1

/-! ### Claim C10 -/

/-- C10: for a valid request (non-empty task list, configuration passing
validation) the response carries the full ordered results array, with HTTP
status 200 exactly when at least one per-task result succeeded and 502
exactly when every task failed. -/
theorem C10_status_partial_failure :
    ∀ (p : CreateJiraRequest) (oracle : Nat → TrackerCallOutcome)
      (ts : List (Option RouteTask)) (rawConfig : RawJiraConfig),
      p.tasks = some ts → ts ≠ [] → p.config = some rawConfig →
      validateJiraConfig (sanitizeJiraConfig rawConfig) = none →
      (POSTcreateJiraTasks (some p) oracle).results
          = some (processTasks (sanitizeJiraConfig rawConfig) oracle ts)
      ∧ ((POSTcreateJiraTasks (some p) oracle).status = 200
          ↔ (processTasks (sanitizeJiraConfig rawConfig) oracle ts).any
              (fun r => r.success) = true)
      ∧ ((POSTcreateJiraTasks (some p) oracle).status = 502
          ↔ (processTasks (sanitizeJiraConfig rawConfig) oracle ts).any
              (fun r => r.success) = false) := by
  intro p oracle ts rawConfig htasks hne hconfig hvalid
  cases ts with
  | nil => exact absurd rfl hne
  | cons t ts =>
    by_cases hany : (processTasks (sanitizeJiraConfig rawConfig) oracle
        (t :: ts)).any (fun r => r.success) = true
    · refine ⟨?_, ?_, ?_⟩ <;>
        simp [POSTcreateJiraTasks, htasks, hconfig, hvalid, processTasks] at *
    · refine ⟨?_, ?_, ?_⟩ <;>
        simp [POSTcreateJiraTasks, htasks, hconfig, hvalid, processTasks] at *

/-- Witness for C10: a one-task request against an always-failing tracker
yields status 502. -/
theorem C10_status_partial_failure_witness :
    (POSTcreateJiraTasks
        (some ⟨some [some ⟨some "Fix build".toList, 1, none, none, none, none, []⟩],
          some ⟨some "https://example.atlassian.net".toList, some "e@x".toList,
            some "tok".toList, some "AB1".toList, none, none, none, none,
            .absent, none, none, none, none⟩⟩)
        (fun _ => .httpFail 500 "oops".toList)).status = 502 := by
  exact (C10_status_partial_failure _ _ _ _ rfl (by decide) rfl
    (by decide)).2.2.mpr (by decide)

/-! ### Claim C8 -/

/-- C8: invoking `submitToJira` while the current task list is empty moves
the workflow straight to the failed state with the validation message, makes
no network call to the tracker endpoint, and leaves the history untouched;
the validation message is non-empty. -/
theorem C8_empty_tasks_no_call :
    ∀ (fresh : JStr × JStr) (st : WorkflowState)
      (activeMeetingId : Option JStr) (history : List MeetingSummary)
      (net : SubmitFetchOutcome),
      st.tasks = [] →
      submitToJira fresh st activeMeetingId history net
          = ({ st with status := .error, errorMessage := some noTasksMsg },
              history, 0)
      ∧ noTasksMsg ≠ [] := by
  intro fresh st activeMeetingId history net h
  exact ⟨by simp [submitToJira, h], by decide⟩

/-- Witness for C8: the initial workflow state has no tasks, so submission
fails with the validation message and zero tracker calls. -/
theorem C8_empty_tasks_no_call_witness :
    submitToJira ("f".toList, "g".toList) initialState none []
        (.respond true (some []) none)
      = ({ initialState with
            status := .error
            errorMessage := some noTasksMsg }, [], 0) := by
  exact (C8_empty_tasks_no_call _ _ _ _ _ rfl).1
